import Mathlib

/-!
Verification development for the solana-security-patterns repository.

The repository holds paired vulnerable/secure Anchor program handlers.  Each
handler is embedded here as a pure Lean function over `Nat`-valued u64 fields:

* u64 arithmetic is `Nat` with explicit `% 2^64` where the Rust code wraps, and
  `Option`-valued `checked_sub` / `checked_add` mirroring `u64::checked_sub` /
  `u64::checked_add`;
* a handler is a function from its account states and instruction arguments to
  `Except Err State`; Anchor constraint checks (`Signer`, `has_one`, the
  `Account` owner check) run before the handler body, in the order Anchor
  performs them, and a runtime failure aborts the enclosing transaction, so a
  failed handler commits nothing (`commit` below);
* a CPI (`invoke`) is a parameter of type `ExtCall`: it receives the program id
  of the instruction and the authoritative balance of the shared record at the
  call boundary and returns the authoritative balance after the call, `none`
  meaning the invocation failed.  In-memory writes made before the delegation
  are authoritative at the boundary (spec section 4.5: lock and effect precede
  the call), `Account::reload` copies the authoritative state back into the
  handler's view, and a handler that skips `reload` keeps using its stale copy.
-/

/-- 2^64, the size of the u64 domain. -/
def U64MOD : Nat := 2 ^ 64

/-- u64::MAX. -/
def U64MAX : Nat := 2 ^ 64 - 1

/-- `u64::checked_sub`: `none` exactly when the subtrahend exceeds the base. -/
def checked_sub (b a : Nat) : Option Nat :=
  if a ≤ b then some (b - a) else none

/-- `u64::checked_add`: `none` exactly when the sum exceeds `u64::MAX`. -/
def checked_add (b a : Nat) : Option Nat :=
  if b + a ≤ U64MAX then some (b + a) else none

/-- Wrapping u64 subtraction (release-mode `-=` on u64). -/
def wrapping_sub (b a : Nat) : Nat :=
  (b + U64MOD - a % U64MOD) % U64MOD

/-- Wrapping u64 addition (release-mode `+=` on u64). -/
def wrapping_add (b a : Nat) : Nat :=
  (b + a) % U64MOD

/-- The state committed by the surrounding transaction boundary: the handler's
result on success, the untouched pre-state on failure (all-or-nothing, spec
section 5). -/
def commit {ε α : Type} (pre : α) : Except ε α → α
  | Except.ok s => s
  | Except.error _ => pre

/-- A cross-program invocation: program id and authoritative shared balance at
the call boundary, returning the authoritative balance after the call
(`none` = the invocation failed). -/
abbrev ExtCall := Nat → Nat → Option Nat

namespace MissingValidationSecure

/-- `UserAccount` of example 01 (secure): authority pubkey, name, points, stored
canonical bump.  Pubkeys are modelled as `Nat`. -/
structure UserAccount where
  authority : Nat
  name : String
  points : Nat
  bump : Nat
  deriving DecidableEq

/-- `Vault` of example 01 (secure). -/
structure Vault where
  authority : Nat
  balance : Nat
  bump : Nat
  deriving DecidableEq

/-- Failure kinds of example 01 (secure): the program's `ErrorCode` variants
plus the Anchor constraint failures raised before the handler body runs. -/
inductive Err where
  | AccountNotSigner   -- `Signer<'info>` check failed
  | ConstraintHasOne   -- `has_one = authority` check failed
  | Unauthorized
  | InsufficientPoints
  | Overflow
  | InsufficientBalance
  deriving DecidableEq

/-- `transfer_points` (secure): Anchor verifies the authority signed and
`from.authority == authority.key()` (has_one), then the body moves `amount`
with checked arithmetic.  PDA seed/bump checks are performed by the runtime on
the supplied accounts and are not part of the state transition. -/
def transfer_points (fromAcc toAcc : UserAccount) (authority_key : Nat)
    (authority_signed : Bool) (amount : Nat) :
    Except Err (UserAccount × UserAccount) :=
  if ¬ authority_signed then .error .AccountNotSigner
  else if ¬ (fromAcc.authority = authority_key) then .error .ConstraintHasOne
  else
    match checked_sub fromAcc.points amount with
    | none => .error .InsufficientPoints
    | some p1 =>
      match checked_add toAcc.points amount with
      | none => .error .Overflow
      | some p2 => .ok ({ fromAcc with points := p1 }, { toAcc with points := p2 })

/-- `withdraw` (secure): no authority parameter; Anchor verifies the signer and
`has_one = authority`, then the body debits with checked subtraction. -/
def withdraw (vault : Vault) (authority_key : Nat) (authority_signed : Bool)
    (amount : Nat) : Except Err Vault :=
  if ¬ authority_signed then .error .AccountNotSigner
  else if ¬ (vault.authority = authority_key) then .error .ConstraintHasOne
  else
    match checked_sub vault.balance amount with
    | none => .error .InsufficientBalance
    | some b => .ok { vault with balance := b }

end MissingValidationSecure

namespace MissingValidationVulnerable

/-- `UserAccount` of example 01 (vulnerable): no stored bump. -/
structure UserAccount where
  authority : Nat
  name : String
  points : Nat
  deriving DecidableEq

/-- `Vault` of example 01 (vulnerable). -/
structure Vault where
  authority : Nat
  balance : Nat
  bump : Nat
  deriving DecidableEq

/-- `ErrorCode` of example 01 (vulnerable). -/
inductive Err where
  | Unauthorized
  | InsufficientPoints
  deriving DecidableEq

/-- `transfer_points` (vulnerable): no signer requirement, no has_one, and the
arithmetic is unchecked (`-=` / `+=` wrap in release builds, as the
repository's own exploitation notes state). -/
def transfer_points (fromAcc toAcc : UserAccount) (amount : Nat) :
    Except Err (UserAccount × UserAccount) :=
  .ok ({ fromAcc with points := wrapping_sub fromAcc.points amount },
       { toAcc with points := wrapping_add toAcc.points amount })

/-- `withdraw` (vulnerable): compares `vault.authority` against the
caller-supplied `vault_authority` instruction argument; the `authority` account
(`authority_key`, `authority_signed`) is never consulted, and the debit is
unchecked. -/
def withdraw (vault : Vault) (amount : Nat) (vault_authority : Nat)
    (authority_key : Nat) (authority_signed : Bool) : Except Err Vault :=
  if ¬ (vault.authority = vault_authority) then .error .Unauthorized
  else .ok { vault with balance := wrapping_sub vault.balance amount }

end MissingValidationVulnerable

namespace CpiSecurity

/-- `Vault` of example 04 (same layout in the secure and vulnerable programs):
authority pubkey, balance, reentrancy lock flag. -/
structure Vault where
  authority : Nat
  balance : Nat
  locked : Bool
  deriving DecidableEq

/-- Hardcoded trusted DEX program id of the secure program (an opaque pubkey
constant, modelled as a distinguished `Nat`). -/
def TRUSTED_DEX_PROGRAM : Nat := 201

/-- Hardcoded trusted validator program id of the secure program. -/
def TRUSTED_VALIDATOR : Nat := 202

namespace Secure

/-- Failure kinds of example 04 (secure): the program's `ErrorCode` variants
plus `CpiFailed`, standing for an `invoke(..)?` error propagated with `?`. -/
inductive Err where
  | NotRepaid
  | Reentrant
  | InvalidProgram
  | ArithmeticError
  | InvalidAmount
  | InsufficientBalance
  | CallbackFailed
  | UnexpectedStateChange
  | CpiFailed
  deriving DecidableEq

/-- `flash_loan` (secure): reentrancy check, lock, record pre-call balance,
validate amount, checked debit, delegate to the caller-supplied
`callback_program` (no identity validation on it), reload the authoritative
state, verify repayment `reloaded ≥ initial + expected_fee`, unlock. -/
def flash_loan (vault : Vault) (callback_program : Nat)
    (amount expected_fee : Nat) (ext : ExtCall) : Except Err Vault :=
  if vault.locked then .error .Reentrant
  else
    let v1 := { vault with locked := true }
    let initial_balance := v1.balance
    if ¬ (0 < amount) then .error .InvalidAmount
    else if ¬ (amount ≤ initial_balance) then .error .InsufficientBalance
    else
      match checked_sub v1.balance amount with
      | none => .error .ArithmeticError
      | some b =>
        let v2 := { v1 with balance := b }
        match ext callback_program v2.balance with
        | none => .error .CpiFailed
        | some reloaded =>
          let v3 := { v2 with balance := reloaded }   -- vault.reload()
          match checked_add initial_balance expected_fee with
          | none => .error .ArithmeticError
          | some expected_total =>
            if ¬ (expected_total ≤ v3.balance) then .error .NotRepaid
            else .ok { v3 with locked := false }

/-- `swap_tokens` (secure): the supplied `dex_program` account must equal the
hardcoded `TRUSTED_DEX_PROGRAM` before the delegation; the instruction itself
is built with the trusted id; the vault is reloaded after the CPI and debited
with checked subtraction. -/
def swap_tokens (vault : Vault) (dex_program : Nat) (amount : Nat)
    (ext : ExtCall) : Except Err Vault :=
  if ¬ (dex_program = TRUSTED_DEX_PROGRAM) then .error .InvalidProgram
  else if ¬ (0 < amount) then .error .InvalidAmount
  else if ¬ (amount ≤ vault.balance) then .error .InsufficientBalance
  else
    match ext TRUSTED_DEX_PROGRAM vault.balance with
    | none => .error .CpiFailed
    | some reloaded =>
      let v1 := { vault with balance := reloaded }   -- vault.reload()
      match checked_sub v1.balance amount with
      | none => .error .ArithmeticError
      | some b => .ok { v1 with balance := b }

/-- `execute_callback` (secure): the supplied program must equal
`TRUSTED_VALIDATOR` (the source checks this twice); the invoke result is
captured and inspected explicitly (`CallbackFailed` on failure rather than
bare propagation); the vault is reloaded and must be unchanged. -/
def execute_callback (vault : Vault) (ext_program : Nat) (ext : ExtCall) :
    Except Err Vault :=
  if ¬ (ext_program = TRUSTED_VALIDATOR) then .error .InvalidProgram
  else if ¬ (ext_program = TRUSTED_VALIDATOR) then .error .InvalidProgram
  else
    let balance_before := vault.balance
    match ext TRUSTED_VALIDATOR vault.balance with
    | none => .error .CallbackFailed
    | some reloaded =>
      let v1 := { vault with balance := reloaded }   -- vault.reload()
      if ¬ (v1.balance = balance_before) then .error .UnexpectedStateChange
      else .ok v1

/-- `transfer_with_validation` (secure): validates internally and performs no
delegation at all (the body contains no `invoke`). -/
def transfer_with_validation (vault : Vault) (amount : Nat) :
    Except Err Vault :=
  if ¬ (0 < amount) then .error .InvalidAmount
  else if ¬ (amount ≤ vault.balance) then .error .InsufficientBalance
  else
    match checked_sub vault.balance amount with
    | none => .error .ArithmeticError
    | some b => .ok { vault with balance := b }

end Secure

namespace Vulnerable

/-- `ErrorCode` of example 04 (vulnerable) plus the propagated invoke failure. -/
inductive Err where
  | NotRepaid
  | Reentrant
  | InvalidProgram
  | CpiFailed
  deriving DecidableEq

/-- `flash_loan` (vulnerable): no reentrancy guard, unchecked debit, delegation
to the caller-supplied program, and the repayment check reads the handler's
stale in-memory balance (the authoritative post-call balance returned by the
delegation is discarded; there is no `reload`).  The fee is `amount / 100` and
the comparison bound `initial_balance + fee` is unchecked u64 addition. -/
def flash_loan (vault : Vault) (callback_program : Nat) (amount : Nat)
    (ext : ExtCall) : Except Err Vault :=
  let initial_balance := vault.balance
  let v1 := { vault with balance := wrapping_sub vault.balance amount }
  match ext callback_program v1.balance with
  | none => .error .CpiFailed
  | some _reloadable =>
    let fee := amount / 100
    if ¬ (wrapping_add initial_balance fee ≤ v1.balance) then .error .NotRepaid
    else .ok v1

/-- `swap_tokens` (vulnerable): delegates to the caller-supplied
`dex_program_id` with no validation, then debits the stale copy unchecked. -/
def swap_tokens (vault : Vault) (dex_program_id : Nat) (amount : Nat)
    (ext : ExtCall) : Except Err Vault :=
  match ext dex_program_id vault.balance with
  | none => .error .CpiFailed
  | some _reloadable =>
    .ok { vault with balance := wrapping_sub vault.balance amount }

end Vulnerable

end CpiSecurity

/-- Runtime view of an account used by the closure example: address, owner
program, lamport balance, and length of the data payload (`realloc(0, false)`
sets it to 0). -/
structure AccountInfo_ where
  key : Nat
  owner : Nat
  lamports : Nat
  data_len : Nat
  deriving DecidableEq

namespace AccountClosureSecure

/-- The secure closure program's own id (`declare_id!`), an opaque constant. -/
def ID : Nat := 301

/-- `Vault` of example 05. -/
structure Vault where
  authority : Nat
  balance : Nat
  deriving DecidableEq

/-- Failure kinds of example 05 (secure): program `ErrorCode` variants plus the
Anchor owner / signer / has_one constraint failures. -/
inductive Err where
  | AccountOwnedByWrongProgram  -- `Account<'info, Vault>` owner check
  | AccountNotSigner
  | ConstraintHasOne
  | Unauthorized
  | InvalidOwner
  | InvalidDestination
  | VaultNotEmpty
  deriving DecidableEq

/-- `close_vault_explicit` (secure): Anchor checks owner, signer, has_one; the
body re-checks authority and owner, then drains all lamports of the vault
account to the authority and reallocs the data to length 0.  Returns the final
(vault account, authority account) runtime states. -/
def close_vault_explicit (vault : Vault) (vault_info authority_info : AccountInfo_)
    (authority_signed : Bool) : Except Err (AccountInfo_ × AccountInfo_) :=
  if ¬ (vault_info.owner = ID) then .error .AccountOwnedByWrongProgram
  else if ¬ authority_signed then .error .AccountNotSigner
  else if ¬ (vault.authority = authority_info.key) then .error .ConstraintHasOne
  else if ¬ (vault.authority = authority_info.key) then .error .Unauthorized
  else if ¬ (vault_info.owner = ID) then .error .InvalidOwner
  else
    let lamports := vault_info.lamports
    let v1 := { vault_info with lamports := vault_info.lamports - lamports }
    let d1 := { authority_info with
                lamports := wrapping_add authority_info.lamports lamports }
    let v2 := { v1 with data_len := 0 }   -- realloc(0, false)
    .ok (v2, d1)

/-- `close_with_validated_destination` (secure): Anchor checks owner, signer,
has_one; the body requires the destination key to equal the authority key,
then drains the lamports to the destination and clears the data. -/
def close_with_validated_destination (vault : Vault)
    (vault_info authority_info dest_info : AccountInfo_)
    (authority_signed : Bool) : Except Err (AccountInfo_ × AccountInfo_) :=
  if ¬ (vault_info.owner = ID) then .error .AccountOwnedByWrongProgram
  else if ¬ authority_signed then .error .AccountNotSigner
  else if ¬ (vault.authority = authority_info.key) then .error .ConstraintHasOne
  else if ¬ (dest_info.key = authority_info.key) then .error .InvalidDestination
  else
    let lamports := vault_info.lamports
    let v1 := { vault_info with lamports := vault_info.lamports - lamports }
    let d1 := { dest_info with
                lamports := wrapping_add dest_info.lamports lamports }
    let v2 := { v1 with data_len := 0 }   -- realloc(0, false)
    .ok (v2, d1)

end AccountClosureSecure

namespace AccountClosureVulnerable

/-- The vulnerable closure program's own id. -/
def ID : Nat := 302

/-- `Vault` of example 05 (vulnerable). -/
structure Vault where
  authority : Nat
  balance : Nat
  deriving DecidableEq

/-- Failure kinds of example 05 (vulnerable): only the Anchor owner check on
`Account<'info, Vault>` can fire; the handler body performs no checks. -/
inductive Err where
  | AccountOwnedByWrongProgram
  deriving DecidableEq

/-- `close_vault_unsigned` (vulnerable): the authority account is a bare
`AccountInfo` (no signature, no has_one, never read); the body drains the
vault's lamports to the destination and returns without clearing the data
(no `realloc`). -/
def close_vault_unsigned (vault : Vault) (vault_info dest_info : AccountInfo_) :
    Except Err (AccountInfo_ × AccountInfo_) :=
  if ¬ (vault_info.owner = ID) then .error .AccountOwnedByWrongProgram
  else
    let lamports := vault_info.lamports
    let v1 := { vault_info with lamports := vault_info.lamports - lamports }
    let d1 := { dest_info with
                lamports := wrapping_add dest_info.lamports lamports }
    .ok (v1, d1)

end AccountClosureVulnerable

/-! ## Helper lemmas (shared by several claims) -/

theorem checked_sub_eq_some {b a c : Nat} :
    checked_sub b a = some c ↔ a ≤ b ∧ c = b - a := by
  unfold checked_sub
  split <;> simp_all <;> omega

theorem checked_sub_eq_none {b a : Nat} :
    checked_sub b a = none ↔ b < a := by
  unfold checked_sub
  split <;> simp_all <;> omega

theorem checked_add_eq_some {b a c : Nat} :
    checked_add b a = some c ↔ b + a ≤ U64MAX ∧ c = b + a := by
  unfold checked_add
  split <;> simp_all <;> omega

theorem checked_add_eq_none {b a : Nat} :
    checked_add b a = none ↔ U64MAX < b + a := by
  unfold checked_add
  split <;> simp_all

theorem wrapping_add_eq_of_le {x y : Nat} (h : x + y ≤ U64MAX) :
    wrapping_add x y = x + y := by
  unfold wrapping_add U64MOD
  unfold U64MAX at h
  omega

/-- Characterization of a successful secure `transfer_points` run. -/
theorem transfer_points_ok {f t : MissingValidationSecure.UserAccount} {sk : Nat}
    {sg : Bool} {a : Nat} {f' t' : MissingValidationSecure.UserAccount}
    (h : MissingValidationSecure.transfer_points f t sk sg a = .ok (f', t')) :
    a ≤ f.points ∧ t.points + a ≤ U64MAX ∧
      f' = { f with points := f.points - a } ∧
      t' = { t with points := t.points + a } := by
  unfold MissingValidationSecure.transfer_points at h
  split at h
  · simp at h
  split at h
  · simp at h
  split at h
  · simp at h
  next p1 hsub =>
    split at h
    · simp at h
    next p2 hadd =>
      rw [checked_sub_eq_some] at hsub
      rw [checked_add_eq_some] at hadd
      obtain ⟨hle, rfl⟩ := hsub
      obtain ⟨hb, rfl⟩ := hadd
      cases h
      exact ⟨hle, hb, rfl, rfl⟩

/-- Characterization of a successful secure `withdraw` run. -/
theorem withdraw_ok {v : MissingValidationSecure.Vault} {sk : Nat} {sg : Bool}
    {a : Nat} {v' : MissingValidationSecure.Vault}
    (h : MissingValidationSecure.withdraw v sk sg a = .ok v') :
    a ≤ v.balance ∧ v' = { v with balance := v.balance - a } := by
  unfold MissingValidationSecure.withdraw at h
  split at h
  · simp at h
  split at h
  · simp at h
  split at h
  · simp at h
  next b hsub =>
    rw [checked_sub_eq_some] at hsub
    obtain ⟨hle, rfl⟩ := hsub
    cases h
    exact ⟨hle, rfl⟩

/-- A secure `flash_loan` run that reaches the delegation and whose delegation
succeeds reduces to the repayment comparison on the reloaded balance. -/
theorem flash_loan_run (v : CpiSecurity.Vault) (cb a fee pb : Nat) (ext : ExtCall)
    (hl : v.locked = false) (ha : 0 < a) (hab : a ≤ v.balance)
    (hext : ext cb (v.balance - a) = some pb) (hnov : v.balance + fee ≤ U64MAX) :
    CpiSecurity.Secure.flash_loan v cb a fee ext =
      if ¬ (v.balance + fee ≤ pb) then .error .NotRepaid
      else .ok ⟨v.authority, pb, false⟩ := by
  unfold CpiSecurity.Secure.flash_loan
  rw [hl]
  have hsub : checked_sub v.balance a = some (v.balance - a) :=
    checked_sub_eq_some.mpr ⟨hab, rfl⟩
  have hadd : checked_add v.balance fee = some (v.balance + fee) :=
    checked_add_eq_some.mpr ⟨hnov, rfl⟩
  simp [ha, hab, hsub, hadd, hext]

/-! ## Claim theorems -/

/-- Claim C1: invoking the guarded secure `flash_loan` on a vault whose lock
flag is set fails with `Reentrant` and commits no change to the vault
(balance, authority and locked are all unchanged), for any amount, fee,
callback program and delegation behaviour. -/
theorem c1_flash_loan_locked_reentrant (v : CpiSecurity.Vault)
    (cb amount fee : Nat) (ext : ExtCall) (h : v.locked = true) :
    CpiSecurity.Secure.flash_loan v cb amount fee ext = .error .Reentrant ∧
    commit v (CpiSecurity.Secure.flash_loan v cb amount fee ext) = v := by
  have he : CpiSecurity.Secure.flash_loan v cb amount fee ext = .error .Reentrant := by
    unfold CpiSecurity.Secure.flash_loan
    rw [h]
    rfl
  exact ⟨he, by rw [he]; rfl⟩

/-- Witness for C1: a locked vault at concrete inputs. -/
theorem c1_witness :
    CpiSecurity.Secure.flash_loan ⟨7, 1000, true⟩ 999 100 1 (fun _ _ => some 0) =
      .error .Reentrant ∧
    commit (⟨7, 1000, true⟩ : CpiSecurity.Vault)
      (CpiSecurity.Secure.flash_loan ⟨7, 1000, true⟩ 999 100 1 (fun _ _ => some 0)) =
      ⟨7, 1000, true⟩ :=
  c1_flash_loan_locked_reentrant ⟨7, 1000, true⟩ 999 100 1 (fun _ _ => some 0) rfl

/-- Claim C7: the first failing check aborts the whole operation and the
committed state equals the pre-operation state — in particular when secure
`transfer_points` fails the recipient overflow check after the sender's
subtraction, and when secure `flash_loan` fails the `NotRepaid` check after
the debit and the lock were applied. -/
theorem c7_first_failure_aborts :
    (∀ (f t : MissingValidationSecure.UserAccount) (sk : Nat) (sg : Bool)
        (a : Nat) (e : MissingValidationSecure.Err),
        MissingValidationSecure.transfer_points f t sk sg a = .error e →
        commit (f, t) (MissingValidationSecure.transfer_points f t sk sg a) = (f, t)) ∧
    (∀ (v : CpiSecurity.Vault) (cb a fee : Nat) (ext : ExtCall)
        (e : CpiSecurity.Secure.Err),
        CpiSecurity.Secure.flash_loan v cb a fee ext = .error e →
        commit v (CpiSecurity.Secure.flash_loan v cb a fee ext) = v) :=
  ⟨fun _ _ _ _ _ _ h => by rw [h]; rfl,
   fun _ _ _ _ _ _ h => by rw [h]; rfl⟩

/-- Witness for C7: a transfer failing `Overflow` after the sender was debited
in memory, and a flash loan failing `NotRepaid` after debit and lock; both
commit the untouched pre-state. -/
theorem c7_witness :
    commit ((⟨5, "a", 10, 0⟩ : MissingValidationSecure.UserAccount),
            (⟨6, "b", U64MAX, 0⟩ : MissingValidationSecure.UserAccount))
      (MissingValidationSecure.transfer_points ⟨5, "a", 10, 0⟩ ⟨6, "b", U64MAX, 0⟩ 5 true 1) =
      (⟨5, "a", 10, 0⟩, ⟨6, "b", U64MAX, 0⟩) ∧
    commit (⟨7, 1000, false⟩ : CpiSecurity.Vault)
      (CpiSecurity.Secure.flash_loan ⟨7, 1000, false⟩ 999 100 5 (fun _ _ => some 1000)) =
      ⟨7, 1000, false⟩ :=
  ⟨c7_first_failure_aborts.1 _ _ _ _ _ .Overflow rfl,
   c7_first_failure_aborts.2 _ _ _ _ _ .NotRepaid rfl⟩

/-- Claim C8: transferring zero points through the secure `transfer_points` is
an identity — for records passing validation (authority signed, has_one
holds, recipient points in the u64 domain) it succeeds and leaves both
records exactly as they were. -/
theorem c8_zero_transfer_identity (f t : MissingValidationSecure.UserAccount)
    (sk : Nat) (hauth : f.authority = sk) (ht : t.points ≤ U64MAX) :
    MissingValidationSecure.transfer_points f t sk true 0 = .ok (f, t) := by
  subst hauth
  unfold MissingValidationSecure.transfer_points
  simp [checked_sub, checked_add, ht]

/-- Witness for C8 at concrete records. -/
theorem c8_witness :
    MissingValidationSecure.transfer_points ⟨3, "x", 10, 0⟩ ⟨4, "y", 20, 0⟩ 3 true 0 =
      .ok (⟨3, "x", 10, 0⟩, ⟨4, "y", 20, 0⟩) :=
  c8_zero_transfer_identity ⟨3, "x", 10, 0⟩ ⟨4, "y", 20, 0⟩ 3 rfl (by decide)

/-- Claim C9: every successful secure `transfer_points` run conserves the total:
the sender decreases by exactly the amount, the recipient increases by exactly
the amount, and the sum of points is unchanged. -/
theorem c9_transfer_conservation (f t : MissingValidationSecure.UserAccount)
    (sk : Nat) (sg : Bool) (a : Nat) (f' t' : MissingValidationSecure.UserAccount)
    (h : MissingValidationSecure.transfer_points f t sk sg a = .ok (f', t')) :
    f'.points + t'.points = f.points + t.points ∧
    f'.points = f.points - a ∧ t'.points = t.points + a := by
  obtain ⟨hle, _, rfl, rfl⟩ := transfer_points_ok h
  refine ⟨?_, rfl, rfl⟩
  simp only []
  omega

/-- Witness for C9: a successful concrete transfer of 30 points. -/
theorem c9_witness :
    MissingValidationSecure.transfer_points ⟨1, "", 100, 0⟩ ⟨2, "", 50, 0⟩ 1 true 30 =
      .ok (⟨1, "", 70, 0⟩, ⟨2, "", 80, 0⟩) ∧
    ((70 : Nat) + 80 = 100 + 50 ∧ (70 : Nat) = 100 - 30 ∧ (80 : Nat) = 50 + 30) :=
  ⟨rfl, c9_transfer_conservation ⟨1, "", 100, 0⟩ ⟨2, "", 50, 0⟩ 1 true 30
    ⟨1, "", 70, 0⟩ ⟨2, "", 80, 0⟩ rfl⟩

/-- Claim C10: the flash-loan repayment threshold is caller-controlled — with
`expected_fee = 0`, a delegation that returns the balance to exactly its
pre-call value passes the `NotRepaid` check and the operation succeeds. -/
theorem c10_caller_controlled_fee (v : CpiSecurity.Vault) (cb a : Nat)
    (ext : ExtCall) (hl : v.locked = false) (ha : 0 < a) (hab : a ≤ v.balance)
    (hb : v.balance ≤ U64MAX) (hext : ext cb (v.balance - a) = some v.balance) :
    CpiSecurity.Secure.flash_loan v cb a 0 ext = .ok ⟨v.authority, v.balance, false⟩ := by
  rw [flash_loan_run v cb a 0 v.balance ext hl ha hab hext (by omega)]
  simp

/-- Witness for C10: repayment of the bare principal with zero fee succeeds. -/
theorem c10_witness :
    CpiSecurity.Secure.flash_loan ⟨7, 1000, false⟩ 999 100 0 (fun _ _ => some 1000) =
      .ok ⟨7, 1000, false⟩ :=
  c10_caller_controlled_fee ⟨7, 1000, false⟩ 999 100 (fun _ _ => some 1000)
    rfl (by decide) (by decide) (by decide) rfl

/-- Counterexample for C2: the vulnerable `transfer_points` (a cited balance
mutation) does not fail when the amount exceeds the sender's balance; it
succeeds and stores the wrapped value `u64::MAX` into the sender's record
(here balance 0, amount 1, and 0 < 1). -/
theorem c2_counterexample :
    MissingValidationVulnerable.transfer_points ⟨1, "", 0⟩ ⟨2, "", 5⟩ 1 =
      .ok (⟨1, "", U64MAX⟩, ⟨2, "", 6⟩) ∧ (0 : Nat) < 1 :=
  ⟨rfl, by decide⟩

/-- Claim C2 (amended to the secure program): for the secure `transfer_points`
and `withdraw`, checked subtraction fails with the insufficient-funds error
exactly when the amount exceeds the balance, checked addition fails with
`Overflow` exactly when the sum exceeds `u64::MAX`, and every successful run
stores the exact (unwrapped) results, all within the u64 domain. -/
theorem c2_checked_arithmetic :
    (∀ (f t : MissingValidationSecure.UserAccount) (sk a : Nat),
        f.authority = sk →
        (MissingValidationSecure.transfer_points f t sk true a =
            .error .InsufficientPoints ↔ f.points < a)) ∧
    (∀ (f t : MissingValidationSecure.UserAccount) (sk a : Nat),
        f.authority = sk → a ≤ f.points →
        (MissingValidationSecure.transfer_points f t sk true a =
            .error .Overflow ↔ U64MAX < t.points + a)) ∧
    (∀ (f t : MissingValidationSecure.UserAccount) (sk : Nat) (sg : Bool)
        (a : Nat) (f' t' : MissingValidationSecure.UserAccount),
        f.points ≤ U64MAX →
        MissingValidationSecure.transfer_points f t sk sg a = .ok (f', t') →
        f'.points = f.points - a ∧ t'.points = t.points + a ∧
          f'.points ≤ U64MAX ∧ t'.points ≤ U64MAX) ∧
    (∀ (v : MissingValidationSecure.Vault) (sk a : Nat),
        v.authority = sk →
        (MissingValidationSecure.withdraw v sk true a =
            .error .InsufficientBalance ↔ v.balance < a)) ∧
    (∀ (v : MissingValidationSecure.Vault) (sk : Nat) (sg : Bool) (a : Nat)
        (v' : MissingValidationSecure.Vault),
        MissingValidationSecure.withdraw v sk sg a = .ok v' →
        v'.balance = v.balance - a ∧ a ≤ v.balance) := by
  refine ⟨?_, ?_, ?_, ?_, ?_⟩
  · intro f t sk a hauth
    subst hauth
    rcases Nat.lt_or_ge f.points a with hlt | hge
    · have hs := checked_sub_eq_none.mpr hlt
      simp [MissingValidationSecure.transfer_points, hs, hlt]
    · have hs := checked_sub_eq_some.mpr ⟨hge, rfl⟩
      cases hadd : checked_add t.points a with
      | none => simp [MissingValidationSecure.transfer_points, hs, hadd]; omega
      | some p2 => simp [MissingValidationSecure.transfer_points, hs, hadd]; omega
  · intro f t sk a hauth hle
    subst hauth
    have hs := checked_sub_eq_some.mpr ⟨hle, rfl⟩
    rcases Nat.lt_or_ge U64MAX (t.points + a) with hlt | hge
    · have hadd := checked_add_eq_none.mpr hlt
      simp [MissingValidationSecure.transfer_points, hs, hadd, hlt]
    · have hadd := checked_add_eq_some.mpr ⟨hge, rfl⟩
      simp [MissingValidationSecure.transfer_points, hs, hadd]
      omega
  · intro f t sk sg a f' t' hf h
    obtain ⟨hle, hb, rfl, rfl⟩ := transfer_points_ok h
    refine ⟨rfl, rfl, ?_, ?_⟩
    · simp
      omega
    · simp
      omega
  · intro v sk a hauth
    subst hauth
    rcases Nat.lt_or_ge v.balance a with hlt | hge
    · have hs := checked_sub_eq_none.mpr hlt
      simp [MissingValidationSecure.withdraw, hs, hlt]
    · have hs := checked_sub_eq_some.mpr ⟨hge, rfl⟩
      simp [MissingValidationSecure.withdraw, hs]
      omega
  · intro v sk sg a v' h
    obtain ⟨hle, rfl⟩ := withdraw_ok h
    exact ⟨rfl, hle⟩

/-- Witness for C2 (amended): one concrete instance of each conjunct. -/
theorem c2_witness :
    (MissingValidationSecure.transfer_points ⟨1, "", 5, 0⟩ ⟨2, "", 7, 0⟩ 1 true 9 =
        .error .InsufficientPoints ↔ (5 : Nat) < 9) ∧
    (MissingValidationSecure.transfer_points ⟨1, "", 5, 0⟩ ⟨2, "", U64MAX, 0⟩ 1 true 3 =
        .error .Overflow ↔ U64MAX < U64MAX + 3) ∧
    ((2 : Nat) = 5 - 3 ∧ (10 : Nat) = 7 + 3 ∧ (2 : Nat) ≤ U64MAX ∧ (10 : Nat) ≤ U64MAX) ∧
    (MissingValidationSecure.withdraw ⟨1, 500, 0⟩ 1 true 700 =
        .error .InsufficientBalance ↔ (500 : Nat) < 700) ∧
    ((300 : Nat) = 500 - 200 ∧ (200 : Nat) ≤ 500) :=
  ⟨c2_checked_arithmetic.1 ⟨1, "", 5, 0⟩ ⟨2, "", 7, 0⟩ 1 9 rfl,
   c2_checked_arithmetic.2.1 ⟨1, "", 5, 0⟩ ⟨2, "", U64MAX, 0⟩ 1 3 rfl (by decide),
   c2_checked_arithmetic.2.2.1 ⟨1, "", 5, 0⟩ ⟨2, "", 7, 0⟩ 1 true 3
     ⟨1, "", 2, 0⟩ ⟨2, "", 10, 0⟩ (by decide) rfl,
   c2_checked_arithmetic.2.2.2.1 ⟨1, 500, 0⟩ 1 700 rfl,
   c2_checked_arithmetic.2.2.2.2 ⟨1, 500, 0⟩ 1 true 200 ⟨1, 300, 0⟩ rfl⟩

/-- Counterexample for C3: the secure `flash_loan` (a cited delegating
operation) delegates to the caller-supplied program 999, which is neither
trusted id, without rejecting it with `InvalidProgram` — the run succeeds and
its result contains the delegation's effect (the delegation only answers for
program id 999, so it was invoked with the unvalidated target). -/
theorem c3_counterexample :
    CpiSecurity.Secure.flash_loan ⟨7, 1000, false⟩ 999 100 0
        (fun pid b => if pid = 999 then some (b + 101) else none) =
      .ok ⟨7, 1001, false⟩ ∧
    (999 : Nat) ≠ CpiSecurity.TRUSTED_DEX_PROGRAM ∧
    (999 : Nat) ≠ CpiSecurity.TRUSTED_VALIDATOR :=
  ⟨rfl, by decide, by decide⟩

/-- Claim C3 (amended): secure `swap_tokens` and `execute_callback` validate
the call target against the hardcoded allow-list before delegating and fail
with `InvalidProgram` on a mismatch; `execute_callback` explicitly inspects
the delegation's success signal, failing with `CallbackFailed`; but the secure
`flash_loan` accepts an arbitrary caller-supplied callback program (it can
never fail with `InvalidProgram`), and the vulnerable `swap_tokens` likewise
performs no target validation. -/
theorem c3_call_target_validation :
    (∀ (v : CpiSecurity.Vault) (dex a : Nat) (ext : ExtCall),
        dex ≠ CpiSecurity.TRUSTED_DEX_PROGRAM →
        CpiSecurity.Secure.swap_tokens v dex a ext = .error .InvalidProgram) ∧
    (∀ (v : CpiSecurity.Vault) (ep : Nat) (ext : ExtCall),
        ep ≠ CpiSecurity.TRUSTED_VALIDATOR →
        CpiSecurity.Secure.execute_callback v ep ext = .error .InvalidProgram) ∧
    (∀ (v : CpiSecurity.Vault) (ext : ExtCall),
        ext CpiSecurity.TRUSTED_VALIDATOR v.balance = none →
        CpiSecurity.Secure.execute_callback v CpiSecurity.TRUSTED_VALIDATOR ext =
          .error .CallbackFailed) ∧
    (∀ (v : CpiSecurity.Vault) (cb a fee : Nat) (ext : ExtCall),
        CpiSecurity.Secure.flash_loan v cb a fee ext ≠ .error .InvalidProgram) ∧
    (∀ (v : CpiSecurity.Vault) (pid a : Nat) (ext : ExtCall),
        CpiSecurity.Vulnerable.swap_tokens v pid a ext ≠ .error .InvalidProgram) := by
  refine ⟨?_, ?_, ?_, ?_, ?_⟩
  · intro v dex a ext h
    simp [CpiSecurity.Secure.swap_tokens, h]
  · intro v ep ext h
    simp [CpiSecurity.Secure.execute_callback, h]
  · intro v ext hext
    simp [CpiSecurity.Secure.execute_callback, hext]
  · intro v cb a fee ext h
    simp only [CpiSecurity.Secure.flash_loan] at h
    repeat' split at h
    all_goals simp_all
  · intro v pid a ext h
    unfold CpiSecurity.Vulnerable.swap_tokens at h
    split at h
    all_goals simp_all

/-- Witness for C3 (amended): concrete instances of each conjunct. -/
theorem c3_witness :
    CpiSecurity.Secure.swap_tokens ⟨7, 1000, false⟩ 5 10 (fun _ _ => some 0) =
      .error .InvalidProgram ∧
    CpiSecurity.Secure.execute_callback ⟨7, 1000, false⟩ 5 (fun _ _ => some 0) =
      .error .InvalidProgram ∧
    CpiSecurity.Secure.execute_callback ⟨7, 1000, false⟩ CpiSecurity.TRUSTED_VALIDATOR
      (fun _ _ => none) = .error .CallbackFailed ∧
    CpiSecurity.Secure.flash_loan ⟨7, 1000, false⟩ 999 100 0 (fun _ _ => some 0) ≠
      .error .InvalidProgram ∧
    CpiSecurity.Vulnerable.swap_tokens ⟨7, 1000, false⟩ 999 10 (fun _ _ => some 0) ≠
      .error .InvalidProgram :=
  ⟨c3_call_target_validation.1 ⟨7, 1000, false⟩ 5 10 (fun _ _ => some 0) (by decide),
   c3_call_target_validation.2.1 ⟨7, 1000, false⟩ 5 (fun _ _ => some 0) (by decide),
   c3_call_target_validation.2.2.1 ⟨7, 1000, false⟩ (fun _ _ => none) rfl,
   c3_call_target_validation.2.2.2.1 ⟨7, 1000, false⟩ 999 100 0 (fun _ _ => some 0),
   c3_call_target_validation.2.2.2.2 ⟨7, 1000, false⟩ 999 10 (fun _ _ => some 0)⟩

/-- Counterexample for C4: in the vulnerable `withdraw`, supplying the
instruction-data authority value 7 — equal to the record's stored authority
but different from the (unsigned) account key 9 — does not fail; the
operation succeeds and debits the vault, granting the privilege on the
supplied value alone. -/
theorem c4_counterexample :
    MissingValidationVulnerable.withdraw ⟨7, 1000, 0⟩ 100 7 9 false =
      .ok ⟨7, 900, 0⟩ ∧ (7 : Nat) ≠ 9 :=
  ⟨rfl, by decide⟩

/-- Claim C4 (amended): the secure `withdraw` accepts no authority parameter
and grants the privilege only to the context-verified signer — it fails with
`AccountNotSigner` when the authority did not sign and with
`ConstraintHasOne` when the signer differs from the stored authority; the
vulnerable `withdraw` succeeds whenever the supplied instruction-data value
equals the stored authority, regardless of the signer. -/
theorem c4_authority_binding :
    (∀ (v : MissingValidationSecure.Vault) (sk a : Nat),
        MissingValidationSecure.withdraw v sk false a = .error .AccountNotSigner) ∧
    (∀ (v : MissingValidationSecure.Vault) (sk a : Nat), v.authority ≠ sk →
        MissingValidationSecure.withdraw v sk true a = .error .ConstraintHasOne) ∧
    (∀ (v : MissingValidationVulnerable.Vault) (a sk : Nat) (sg : Bool),
        MissingValidationVulnerable.withdraw v a v.authority sk sg =
          .ok { v with balance := wrapping_sub v.balance a }) := by
  refine ⟨?_, ?_, ?_⟩
  · intro v sk a
    simp [MissingValidationSecure.withdraw]
  · intro v sk a h
    simp [MissingValidationSecure.withdraw, h]
  · intro v a sk sg
    simp [MissingValidationVulnerable.withdraw]

/-- Witness for C4 (amended): concrete instances of each conjunct. -/
theorem c4_witness :
    MissingValidationSecure.withdraw ⟨7, 1000, 0⟩ 7 false 100 =
      .error .AccountNotSigner ∧
    MissingValidationSecure.withdraw ⟨7, 1000, 0⟩ 9 true 100 =
      .error .ConstraintHasOne ∧
    MissingValidationVulnerable.withdraw ⟨7, 1000, 0⟩ 100 7 9 false =
      .ok ⟨7, 900, 0⟩ :=
  ⟨c4_authority_binding.1 ⟨7, 1000, 0⟩ 7 100,
   c4_authority_binding.2.1 ⟨7, 1000, 0⟩ 9 100 (by decide),
   c4_authority_binding.2.2 ⟨7, 1000, 0⟩ 100 9 false⟩

/-- Counterexample for C5: in the vulnerable `flash_loan` (a cited source), a
run in which the delegation leaves the authoritative reloadable balance at
1001 = pre-call balance 1000 plus fee 1 (amount 100, fee = 100/100) still
fails with `NotRepaid`, because the check reads the stale in-memory copy
(900) instead of the reloaded state — so the operation does not fail with
`NotRepaid` exactly when the reloaded balance is below principal plus fee. -/
theorem c5_counterexample :
    CpiSecurity.Vulnerable.flash_loan ⟨7, 1000, false⟩ 999 100 (fun _ _ => some 1001) =
      .error .NotRepaid ∧
    ¬ ((1001 : Nat) < 1000 + 100 / 100) :=
  ⟨rfl, by decide⟩

/-- Claim C5 (amended): the secure `flash_loan` checks repayment against the
reloaded authoritative state: for every execution reaching the delegation
whose delegation succeeds with reloaded balance `pb`, and whose pre-call
balance plus fee stays in the u64 domain, the operation fails with
`NotRepaid` exactly when `pb` is below the pre-call balance plus the fee, and
otherwise succeeds storing exactly `pb`.  (The vulnerable `flash_loan` checks
a stale in-memory copy instead, per the counterexample.) -/
theorem c5_reload_invariant (v : CpiSecurity.Vault) (cb a fee pb : Nat)
    (ext : ExtCall) (hl : v.locked = false) (ha : 0 < a) (hab : a ≤ v.balance)
    (hext : ext cb (v.balance - a) = some pb) (hnov : v.balance + fee ≤ U64MAX) :
    (CpiSecurity.Secure.flash_loan v cb a fee ext = .error .NotRepaid ↔
      pb < v.balance + fee) ∧
    (v.balance + fee ≤ pb →
      CpiSecurity.Secure.flash_loan v cb a fee ext = .ok ⟨v.authority, pb, false⟩) := by
  rw [flash_loan_run v cb a fee pb ext hl ha hab hext hnov]
  by_cases hle : v.balance + fee ≤ pb
  · constructor
    · simp only [if_neg (by omega : ¬ ¬ (v.balance + fee ≤ pb))]
      constructor
      · intro hx
        exact absurd hx (by simp)
      · omega
    · intro _
      simp [hle]
  · constructor
    · simp only [if_pos (by omega : ¬ (v.balance + fee ≤ pb))]
      constructor
      · intro _
        omega
      · intro _
        trivial
    · intro hc
      exact absurd hc hle

/-- Witness for C5 (amended): a concrete run, fee 1, delegation repaying
principal plus fee. -/
theorem c5_witness :
    (CpiSecurity.Secure.flash_loan ⟨7, 1000, false⟩ 999 100 1 (fun _ b => some (b + 101)) =
        .error .NotRepaid ↔ (1001 : Nat) < 1000 + 1) ∧
    ((1000 : Nat) + 1 ≤ 1001 →
      CpiSecurity.Secure.flash_loan ⟨7, 1000, false⟩ 999 100 1 (fun _ b => some (b + 101)) =
        .ok ⟨7, 1001, false⟩) :=
  c5_reload_invariant ⟨7, 1000, false⟩ 999 100 1 1001 (fun _ b => some (b + 101))
    rfl (by decide) (by decide) rfl (by decide)

/-- Counterexample for C6: the vulnerable `close_vault_unsigned` (a cited
closure operation) succeeds, moves the vault's 500 lamports to the
destination (20 becomes 520), and leaves the data payload uncleared
(length 40, not 0): a successful closure transfers value without clearing
the data. -/
theorem c6_counterexample :
    AccountClosureVulnerable.close_vault_unsigned ⟨7, 1000⟩
        ⟨10, AccountClosureVulnerable.ID, 500, 40⟩ ⟨11, 0, 20, 0⟩ =
      .ok (⟨10, AccountClosureVulnerable.ID, 0, 40⟩, ⟨11, 0, 520, 0⟩) ∧
    (40 : Nat) ≠ 0 :=
  ⟨rfl, by decide⟩

/-- Claim C6 (amended): for the secure closure operations
(`close_vault_explicit`, `close_with_validated_destination`) every successful
run (with the destination's lamport sum in the u64 domain) increases the
destination by exactly the vault account's pre-closure lamports, empties the
vault account, and clears its data to length 0; the vulnerable
`close_vault_unsigned` transfers the lamports without clearing the data. -/
theorem c6_closure_atomicity :
    (∀ (vault : AccountClosureSecure.Vault) (vi ai : AccountInfo_) (sg : Bool)
        (vi' ai' : AccountInfo_),
        ai.lamports + vi.lamports ≤ U64MAX →
        AccountClosureSecure.close_vault_explicit vault vi ai sg = .ok (vi', ai') →
        ai'.lamports = ai.lamports + vi.lamports ∧
          vi'.lamports = 0 ∧ vi'.data_len = 0) ∧
    (∀ (vault : AccountClosureSecure.Vault) (vi ai di : AccountInfo_) (sg : Bool)
        (vi' di' : AccountInfo_),
        di.lamports + vi.lamports ≤ U64MAX →
        AccountClosureSecure.close_with_validated_destination vault vi ai di sg =
          .ok (vi', di') →
        di'.lamports = di.lamports + vi.lamports ∧
          vi'.lamports = 0 ∧ vi'.data_len = 0) := by
  constructor
  · intro vault vi ai sg vi' ai' hno h
    simp only [AccountClosureSecure.close_vault_explicit] at h
    repeat' split at h
    all_goals simp_all
    obtain ⟨h1, h2⟩ := h
    rw [← h1, ← h2]
    refine ⟨?_, by simp, by simp⟩
    simp [wrapping_add_eq_of_le hno]
  · intro vault vi ai di sg vi' di' hno h
    simp only [AccountClosureSecure.close_with_validated_destination] at h
    repeat' split at h
    all_goals simp_all
    obtain ⟨h1, h2⟩ := h
    rw [← h1, ← h2]
    refine ⟨?_, by simp, by simp⟩
    simp [wrapping_add_eq_of_le hno]

/-- Witness for C6 (amended): concrete successful runs of both secure
closures. -/
theorem c6_witness :
    AccountClosureSecure.close_vault_explicit ⟨7, 0⟩
        ⟨10, AccountClosureSecure.ID, 500, 40⟩ ⟨7, 0, 20, 0⟩ true =
      .ok (⟨10, AccountClosureSecure.ID, 0, 0⟩, ⟨7, 0, 520, 0⟩) ∧
    ((520 : Nat) = 20 + 500 ∧ (0 : Nat) = 0 ∧ (0 : Nat) = 0) ∧
    AccountClosureSecure.close_with_validated_destination ⟨7, 0⟩
        ⟨10, AccountClosureSecure.ID, 500, 40⟩ ⟨7, 0, 20, 0⟩ ⟨7, 1, 5, 0⟩ true =
      .ok (⟨10, AccountClosureSecure.ID, 0, 0⟩, ⟨7, 1, 505, 0⟩) ∧
    ((505 : Nat) = 5 + 500 ∧ (0 : Nat) = 0 ∧ (0 : Nat) = 0) :=
  ⟨rfl,
   c6_closure_atomicity.1 ⟨7, 0⟩ ⟨10, AccountClosureSecure.ID, 500, 40⟩
     ⟨7, 0, 20, 0⟩ true ⟨10, AccountClosureSecure.ID, 0, 0⟩ ⟨7, 0, 520, 0⟩
     (by decide) rfl,
   rfl,
   c6_closure_atomicity.2 ⟨7, 0⟩ ⟨10, AccountClosureSecure.ID, 500, 40⟩
     ⟨7, 0, 20, 0⟩ ⟨7, 1, 5, 0⟩ true ⟨10, AccountClosureSecure.ID, 0, 0⟩
     ⟨7, 1, 505, 0⟩ (by decide) rfl⟩
